import Mathlib

/-!
Verification of a Telegram mini-app QR client, shallowly embedded from its
TypeScript source.  Three flows are modelled:

* the session gate (`checkPermission` in the root `App` component),
* the login/bind flow (`handleSendOtp` and `handleVerify` in `LoginScreen`),
* the QR capture flow (`normalizeUrl` and `openScanner` in `QrScanner`,
  in both the full and the simplified variant of the component).

External collaborators (the Supabase backend client and the Telegram host
bridge) are modelled by their observable responses, passed as explicit
arguments; host URL parsing (`new URL`) is an uninterpreted boolean
parameter.  Numbers are `Nat`; JS truthiness of `number | undefined` and of
`string | undefined` is made explicit.
-/

namespace TgMiniApp

/-! ## Session gate (`checkPermission`) -/

/-- A backend session: `session.user.id` is the subject identifier. -/
structure Session where
  userId : String
  deriving Repr, DecidableEq

/-- Row returned by the profile query `select("telegram_id")`. -/
structure ProfileRow where
  telegram_id : Nat
  deriving Repr, DecidableEq

/-- Response of `supabase.auth.getSession()`.  The code destructures only
`data.session`; a failed call carries no session (`session = none`)
alongside a non-null error. -/
structure GetSessionResp where
  session : Option Session
  error : Option String

/-- Response of `supabase.from("profiles").select("telegram_id").eq("id", _).single()`.
The code destructures only `data`; a failed call carries `data = none`. -/
structure ProfileResp where
  data : Option ProfileRow
  error : Option String

/-- Observable outcome of one run of `checkPermission`: the access flag it
stores and whether the profile query was issued at all. -/
structure GateOutcome where
  hasAccess : Bool
  profileQueried : Bool
  deriving Repr, DecidableEq

/-- JS truthiness of a `number | undefined` value: `undefined` and `0` are
falsy (`if (currentTgId)`). -/
def jsTruthyNum : Option Nat → Bool
  | none => false
  | some n => n != 0

/-- `checkPermission` from the root `App` component: fetch the session
(stop with no access if absent), read `initData.state()?.user?.id`, and if
that id is truthy query the profile row keyed by the session's subject and
compare its `telegram_id` with the current id (`==` between two numbers is
numeric equality); otherwise fail closed without querying. -/
def checkPermission (sess : GetSessionResp) (currentTgId : Option Nat)
    (profileQuery : String → ProfileResp) : GateOutcome :=
  match sess.session with
  | none => { hasAccess := false, profileQueried := false }
  | some session =>
    if jsTruthyNum currentTgId then
      match (profileQuery session.userId).data with
      | some profile =>
        { hasAccess := profile.telegram_id == currentTgId.getD 0
          profileQueried := true }
      | none => { hasAccess := false, profileQueried := true }
    else
      { hasAccess := false, profileQueried := false }

/-- JS loose equality between the profile's bound number and the current
`number | undefined` id: `n == undefined` is `false`, two numbers compare
numerically. -/
def looseEqNum (bound : Nat) (cur : Option Nat) : Bool :=
  match cur with
  | none => false
  | some c => bound == c

/-- Follows the claim's words (claim-side of the refinement): decision =
(session exists) AND (the profile keyed by the session's subject exists AND
its bound platform id loosely equals the current launch platform id). -/
def specAccessDecision (sess : GetSessionResp) (currentTgId : Option Nat)
    (profileQuery : String → ProfileResp) : Bool :=
  match sess.session with
  | none => false
  | some session =>
    match (profileQuery session.userId).data with
    | none => false
    | some profile => looseEqNum profile.telegram_id currentTgId

/-- The amended claim-side decision: additionally requires the current
platform user id to be truthy (present and non-zero), as the code does. -/
def specAccessDecisionAmended (sess : GetSessionResp) (currentTgId : Option Nat)
    (profileQuery : String → ProfileResp) : Bool :=
  sess.session.isSome && jsTruthyNum currentTgId &&
    specAccessDecision sess currentTgId profileQuery

/-- C1 (counterexample): with a valid session for subject `u1`, a current
platform user id of `0`, and a profile row binding `u1` to `0`, the claimed
formula (session exists AND bound id loosely equals current id) is `true`,
but `checkPermission` denies access — the claimed equality fails. -/
theorem claim_C1_counterexample :
    (checkPermission { session := some { userId := "u1" }, error := none }
        (some 0)
        (fun _ => { data := some { telegram_id := 0 }, error := none })).hasAccess
      = false ∧
    specAccessDecision { session := some { userId := "u1" }, error := none }
        (some 0)
        (fun _ => { data := some { telegram_id := 0 }, error := none })
      = true := by
  constructor <;> rfl

/-- C1 (amended): the access decision equals (session exists) AND (current
platform user id is truthy) AND (profile exists AND its bound id loosely
equals the current id); and the profile query is issued exactly when the
session exists and the current id is truthy — so an absent session yields
a false decision with no profile query, a bound-id mismatch yields false
despite a valid session, and a match (with a truthy id) yields true. -/
theorem claim_C1_access_decision (sess : GetSessionResp) (cur : Option Nat)
    (profileQuery : String → ProfileResp) :
    (checkPermission sess cur profileQuery).hasAccess
        = specAccessDecisionAmended sess cur profileQuery ∧
    (checkPermission sess cur profileQuery).profileQueried
        = (sess.session.isSome && jsTruthyNum cur) := by
  obtain ⟨s, e⟩ := sess
  cases s with
  | none => simp [checkPermission, specAccessDecisionAmended, specAccessDecision]
  | some session =>
    cases cur with
    | none =>
      simp [checkPermission, specAccessDecisionAmended, specAccessDecision,
        jsTruthyNum]
    | some n =>
      by_cases hn : n = 0
      · subst hn
        simp [checkPermission, specAccessDecisionAmended, jsTruthyNum]
      · cases hp : (profileQuery session.userId).data with
        | none =>
          simp [checkPermission, specAccessDecisionAmended, specAccessDecision,
            jsTruthyNum, hp, hn]
        | some profile =>
          simp [checkPermission, specAccessDecisionAmended, specAccessDecision,
            jsTruthyNum, looseEqNum, hp, hn]

/-- C3: every backend fetch failure inside `checkPermission` fails closed.
A failed session fetch (error set, no session data) yields no access and no
profile query; an unavailable launch identity yields no access; a failed
profile query (error set, no row data) yields no access.  The embedding is
a total function, so no failure escapes as a fatal error. -/
theorem claim_C3_fail_closed (sess : GetSessionResp) (cur : Option Nat)
    (profileQuery : String → ProfileResp) :
    (sess.error.isSome = true → sess.session = none →
      checkPermission sess cur profileQuery
        = { hasAccess := false, profileQueried := false }) ∧
    (cur = none → (checkPermission sess cur profileQuery).hasAccess = false) ∧
    (∀ s, sess.session = some s → (profileQuery s.userId).error.isSome = true →
      (profileQuery s.userId).data = none →
      (checkPermission sess cur profileQuery).hasAccess = false) := by
  refine ⟨fun _ hnone => ?_, fun hcur => ?_, fun s hs _ hdata => ?_⟩
  · simp [checkPermission, hnone]
  · subst hcur
    obtain ⟨s, e⟩ := sess
    cases s <;> simp [checkPermission, jsTruthyNum]
  · simp_all [checkPermission]
    cases jsTruthyNum cur <;> simp

/-- C3 witness: concrete failing fetches, each denied. -/
theorem claim_C3_fail_closed_witness :
    checkPermission { session := none, error := some "network error" } (some 7)
        (fun _ => { data := none, error := none })
      = { hasAccess := false, profileQueried := false } ∧
    (checkPermission { session := some { userId := "u1" }, error := none } none
        (fun _ => { data := some { telegram_id := 7 }, error := none })).hasAccess
      = false ∧
    (checkPermission { session := some { userId := "u1" }, error := none } (some 7)
        (fun _ => { data := none, error := some "network error" })).hasAccess
      = false := by
  refine ⟨?_, ?_, ?_⟩
  · exact (claim_C3_fail_closed _ _ _).1 rfl rfl
  · exact (claim_C3_fail_closed _ _ _).2.1 rfl
  · exact (claim_C3_fail_closed _ _ _).2.2 ⟨"u1"⟩ rfl rfl rfl

/-- C10: with a session present but a falsy launch platform user id
(absent, or the number 0), the gate denies access and never issues the
profile query — id 0 is treated like an unavailable id, whatever profile
rows exist. -/
theorem claim_C10_zero_id_fails_closed (sess : GetSessionResp) (s : Session)
    (cur : Option Nat) (profileQuery : String → ProfileResp)
    (hs : sess.session = some s) (hcur : cur = none ∨ cur = some 0) :
    checkPermission sess cur profileQuery
      = { hasAccess := false, profileQueried := false } := by
  rcases hcur with h | h <;> subst h <;> simp [checkPermission, hs, jsTruthyNum]

/-- C10 witness: session for `u1`, current id 0, and a profile row bound to
0 — still denied without a profile query. -/
theorem claim_C10_zero_id_fails_closed_witness :
    checkPermission { session := some { userId := "u1" }, error := none } (some 0)
        (fun _ => { data := some { telegram_id := 0 }, error := none })
      = { hasAccess := false, profileQueried := false } :=
  claim_C10_zero_id_fails_closed _ ⟨"u1"⟩ _ _ rfl (Or.inr rfl)

/-! ## QR capture flow (`QrScanner`) -/

/-- JS `String.prototype.trim` on the character list: strip whitespace from
both ends. -/
def trimList (l : List Char) : List Char :=
  ((l.dropWhile Char.isWhitespace).reverse.dropWhile Char.isWhitespace).reverse

/-- JS `value.trim()`. -/
def jsTrim (s : String) : String := String.mk (trimList s.toList)

/-- Case-insensitive literal-prefix test (the `/i` flag on an anchored
regex literal): each input character lowercased must equal the pattern
character. -/
def startsWithCI : List Char → List Char → Bool
  | _, [] => true
  | [], _ :: _ => false
  | c :: cs, p :: ps => c.toLower == p && startsWithCI cs ps

/-- `\S+$` on the remainder: non-empty and free of whitespace. -/
def restNonSpace (l : List Char) : Bool :=
  !l.isEmpty && l.all (fun c => !c.isWhitespace)

def httpsPrefix : List Char := ['h', 't', 't', 'p', 's', ':', '/', '/']

def httpPrefix : List Char := ['h', 't', 't', 'p', ':', '/', '/']

def wwwPrefix : List Char := ['w', 'w', 'w', '.']

/-- The test `/^https?:\/\/\S+$/i.test(raw)`. -/
def isHttpUrlShape (s : String) : Bool :=
  (startsWithCI s.toList httpsPrefix && restNonSpace (s.toList.drop 8)) ||
    (startsWithCI s.toList httpPrefix && restNonSpace (s.toList.drop 7))

/-- The test `/^www\.\S+$/i.test(raw)`. -/
def isWwwShape (s : String) : Bool :=
  startsWithCI s.toList wwwPrefix && restNonSpace (s.toList.drop 4)

/-- `normalizeUrl` from `QrScanner`: trim; reject the empty string; accept
an `https?://` shaped string as-is when `new URL` accepts it; else accept a
`www.` shaped string prefixed with `https://` when `new URL` accepts the
prefixed form; else not a URL.  Host URL parsing (`new URL` succeeding) is
the uninterpreted parameter `validURL`. -/
def normalizeUrl (validURL : String → Bool) (value : String) : Option String :=
  let raw := jsTrim value
  if raw.toList.isEmpty then none
  else if isHttpUrlShape raw then
    if validURL raw then some raw else none
  else if isWwwShape raw then
    let normalized := "https://" ++ raw
    if validURL normalized then some normalized else none
  else none

/-- Follows the claim's words (claim-side of the refinement): trim; empty →
not-a-URL; matches `^https?://\S+$` (case-insensitive) and parses → return
the trimmed string unchanged; else matches `^www\.\S+$` (case-insensitive)
and the `https://`-prefixed form parses → return the prefixed form; every
other string → not-a-URL. -/
def specNormalizeUrl (validURL : String → Bool) (value : String) : Option String :=
  let t := jsTrim value
  if t.toList.isEmpty then none
  else if isHttpUrlShape t && validURL t then some t
  else if isWwwShape t && validURL ("https://" ++ t) then some ("https://" ++ t)
  else none

/-- A string shaped `https?://…` starts (case-insensitively) with `h`, so it
cannot also be shaped `www.…`. -/
theorem isHttpUrlShape_not_www (s : String) (h : isHttpUrlShape s = true) :
    isWwwShape s = false := by
  unfold isHttpUrlShape at h
  unfold isWwwShape
  cases l : s.toList with
  | nil => simp [l, startsWithCI, wwwPrefix]
  | cons c cs =>
    rw [l] at h
    have hc : c.toLower = 'h' := by
      rcases Bool.or_eq_true_iff.mp h with h' | h' <;>
        · have := (Bool.and_eq_true_iff.mp h').1
          simp [startsWithCI, httpsPrefix, httpPrefix] at this
          exact this.1
    simp [startsWithCI, wwwPrefix, hc]

/-- C2: `normalizeUrl` coincides with the claimed classification on every
input string and every URL-validity oracle. -/
theorem claim_C2_normalizeUrl_classification (validURL : String → Bool)
    (value : String) :
    normalizeUrl validURL value = specNormalizeUrl validURL value := by
  unfold normalizeUrl specNormalizeUrl
  by_cases he : (jsTrim value).data = []
  · simp [he]
  · cases hh : isHttpUrlShape (jsTrim value) with
    | true =>
      have hw := isHttpUrlShape_not_www _ hh
      cases hv : validURL (jsTrim value) <;> simp [he, hh, hw, hv]
    | false =>
      cases hwv : isWwwShape (jsTrim value) <;>
        cases hv : validURL ("https://" ++ jsTrim value) <;>
          simp [he, hh, hwv, hv]

/-- View state of the full `QrScanner` component together with the trace of
`openLink` calls made on its behalf. -/
structure ScanState where
  qrResult : Option String
  error : Option String
  linkOpens : List String
  deriving Repr, DecidableEq

/-- The `capture` callback passed to `qrScanner.capture` in the full
component: reject anything whose trim is empty; otherwise classify at once
— a URL clears the displayed result and is opened via `openLink`, other
text is stored as the displayed result — and accept (close the scanner). -/
def captureCb (validURL : String → Bool) (st : ScanState) (p : String) :
    ScanState × Bool :=
  if (jsTrim p).toList.isEmpty then (st, false)
  else
    match normalizeUrl validURL p with
    | some url =>
      ({ st with qrResult := none, linkOpens := st.linkOpens ++ [url] }, true)
    | none => ({ st with qrResult := some p }, true)

/-- The scanner offers decoded payloads in order until the callback accepts
one; the awaited promise then resolves with the accepted payload, or with
`undefined` when the scanner closes without an accepted payload. -/
def runCapture (validURL : String → Bool) :
    ScanState → List String → ScanState × Option String
  | st, [] => (st, none)
  | st, p :: rest =>
    let r := captureCb validURL st p
    if r.2 then (r.1, some p) else runCapture validURL r.1 rest

def noPayloadMsg : String := "QR scanner was closed or no QR content was captured."

def scannerFailMsg : String :=
  "Failed to open QR scanner (unsupported environment or client limitation)."

/-- The code after `await qrScanner.capture(...)` resolves in the full
component: no payload → set the closed-scanner error; otherwise repeat the
classification (redundantly with the callback) and act the same way. -/
def afterResolve (validURL : String → Bool) (st : ScanState) :
    Option String → ScanState
  | none => { st with error := some noPayloadMsg }
  | some s =>
    match normalizeUrl validURL s with
    | some url => { st with qrResult := none, linkOpens := st.linkOpens ++ [url] }
    | none => { st with qrResult := some s }

/-- Behaviour of one `qrScanner.capture` invocation: either the promise
resolves after the scanner offered the given payloads, or the call throws /
rejects (unsupported environment) before any payload is delivered. -/
inductive ScanCall where
  | resolves (payloads : List String)
  | throws

/-- `openScanner` of the full component: clear the error, run the capture
call, and on a throw set the environment-limitation error instead. -/
def openScanner (validURL : String → Bool) (call : ScanCall) (st : ScanState) :
    ScanState :=
  let st0 := { st with error := (none : Option String) }
  match call with
  | .throws => { st0 with error := some scannerFailMsg }
  | .resolves payloads =>
    let r := runCapture validURL st0 payloads
    afterResolve validURL r.1 r.2

/-- Payloads whose trim is empty are rejected by the callback without any
state change, so they can be discarded from the front of the offer list. -/
theorem runCapture_skip_blank (validURL : String → Bool) (st : ScanState)
    (junk ps : List String)
    (h : ∀ p ∈ junk, (jsTrim p).toList.isEmpty = true) :
    runCapture validURL st (junk ++ ps) = runCapture validURL st ps := by
  induction junk with
  | nil => rfl
  | cons q rest ih =>
    have hq : (jsTrim q).toList.isEmpty = true := h q (by simp)
    have hrest : ∀ p ∈ rest, (jsTrim p).toList.isEmpty = true :=
      fun p hp => h p (by simp [hp])
    simp only [List.cons_append, runCapture, captureCb, hq, if_true]
    exact ih hrest

/-- C7: offering any run of blank payloads followed by a payload with a
non-empty trim, the callback rejects every blank and accepts the first
non-blank; if that payload classifies as a URL the final state has opened
the normalized URL (in the callback and again in the redundant resolved
pass) with no displayed result, and if it does not, the payload is the
displayed result and no link is opened. -/
theorem claim_C7_scan_accept_and_classify (validURL : String → Bool)
    (st : ScanState) (junk : List String) (good : String) (rest : List String)
    (hjunk : ∀ p ∈ junk, (jsTrim p).toList.isEmpty = true)
    (hgood : (jsTrim good).toList.isEmpty = false) :
    (∀ url, normalizeUrl validURL good = some url →
      openScanner validURL (.resolves (junk ++ good :: rest)) st =
        { qrResult := none, error := none,
          linkOpens := st.linkOpens ++ [url, url] }) ∧
    (normalizeUrl validURL good = none →
      openScanner validURL (.resolves (junk ++ good :: rest)) st =
        { qrResult := some good, error := none, linkOpens := st.linkOpens }) := by
  constructor
  · intro url hurl
    simp only [openScanner, runCapture_skip_blank validURL _ junk _ hjunk,
      runCapture, captureCb, hgood, hurl]
    simp [afterResolve, hurl]
  · intro hurl
    simp only [openScanner, runCapture_skip_blank validURL _ junk _ hjunk,
      runCapture, captureCb, hgood, hurl]
    simp [afterResolve, hurl]

/-- C7 witness: the two claimed scenarios.  Offering `""`, `"  "`, `"hello"`
displays `hello` and opens nothing; offering `"www.example.com/x"` opens
`https://www.example.com/x` and displays nothing. -/
theorem claim_C7_scan_accept_and_classify_witness :
    openScanner (fun _ => true) (.resolves ["", "  ", "hello"])
        { qrResult := none, error := none, linkOpens := [] } =
      { qrResult := some "hello", error := none, linkOpens := [] } ∧
    openScanner (fun _ => true) (.resolves ["www.example.com/x"])
        { qrResult := none, error := none, linkOpens := [] } =
      { qrResult := none, error := none,
        linkOpens := ["https://www.example.com/x", "https://www.example.com/x"] } := by
  constructor
  · exact (claim_C7_scan_accept_and_classify (fun _ => true) _ ["", "  "]
      "hello" [] (by decide) (by decide)).2 (by decide)
  · exact (claim_C7_scan_accept_and_classify (fun _ => true) _ [] "www.example.com/x"
      [] (by decide) (by decide)).1 "https://www.example.com/x" (by decide)

/-- C8: for an accepted payload, the callback pass and the redundant
post-resolve pass make the same classification and the same side-effect
decision — either both open the (same) normalized link and leave the result
unset, or both display the payload and open nothing; never one of each. -/
theorem claim_C8_classification_idempotent (validURL : String → Bool)
    (st : ScanState) (p : String)
    (h : (jsTrim p).toList.isEmpty = false) :
    (captureCb validURL st p).2 = true ∧
    ((∃ url, normalizeUrl validURL p = some url ∧
        (captureCb validURL st p).1.qrResult = none ∧
        (afterResolve validURL (captureCb validURL st p).1 (some p)).qrResult
          = none ∧
        (captureCb validURL st p).1.linkOpens = st.linkOpens ++ [url] ∧
        (afterResolve validURL (captureCb validURL st p).1 (some p)).linkOpens
          = st.linkOpens ++ [url, url]) ∨
      (normalizeUrl validURL p = none ∧
        (captureCb validURL st p).1.qrResult = some p ∧
        (afterResolve validURL (captureCb validURL st p).1 (some p)).qrResult
          = some p ∧
        (captureCb validURL st p).1.linkOpens = st.linkOpens ∧
        (afterResolve validURL (captureCb validURL st p).1 (some p)).linkOpens
          = st.linkOpens)) := by
  have hne : ¬(jsTrim p).data = [] := by simpa using h
  cases hurl : normalizeUrl validURL p with
  | some url =>
    refine ⟨?_, Or.inl ⟨url, rfl, ?_, ?_, ?_, ?_⟩⟩ <;>
      simp [captureCb, afterResolve, hne, hurl]
  | none =>
    refine ⟨?_, Or.inr ⟨rfl, ?_, ?_, ?_, ?_⟩⟩ <;>
      simp [captureCb, afterResolve, hne, hurl]

/-- C8 witness: the payload `hello`, which classifies as text in both
passes. -/
theorem claim_C8_classification_idempotent_witness :
    (captureCb (fun _ => true) { qrResult := none, error := none, linkOpens := [] }
        "hello").2 = true ∧
    ((∃ url, normalizeUrl (fun _ => true) "hello" = some url ∧
        (captureCb (fun _ => true)
          { qrResult := none, error := none, linkOpens := [] } "hello").1.qrResult
            = none ∧
        (afterResolve (fun _ => true)
          (captureCb (fun _ => true)
            { qrResult := none, error := none, linkOpens := [] } "hello").1
          (some "hello")).qrResult = none ∧
        (captureCb (fun _ => true)
          { qrResult := none, error := none, linkOpens := [] } "hello").1.linkOpens
            = [] ++ [url] ∧
        (afterResolve (fun _ => true)
          (captureCb (fun _ => true)
            { qrResult := none, error := none, linkOpens := [] } "hello").1
          (some "hello")).linkOpens = [] ++ [url, url]) ∨
      (normalizeUrl (fun _ => true) "hello" = none ∧
        (captureCb (fun _ => true)
          { qrResult := none, error := none, linkOpens := [] } "hello").1.qrResult
            = some "hello" ∧
        (afterResolve (fun _ => true)
          (captureCb (fun _ => true)
            { qrResult := none, error := none, linkOpens := [] } "hello").1
          (some "hello")).qrResult = some "hello" ∧
        (captureCb (fun _ => true)
          { qrResult := none, error := none, linkOpens := [] } "hello").1.linkOpens
            = [] ∧
        (afterResolve (fun _ => true)
          (captureCb (fun _ => true)
            { qrResult := none, error := none, linkOpens := [] } "hello").1
          (some "hello")).linkOpens = [])) :=
  claim_C8_classification_idempotent (fun _ => true) _ "hello" (by decide)

/-- View state of the simplified `QrScanner` component (no link opening). -/
structure SimpleScanState where
  qrResult : Option String
  error : Option String
  deriving Repr, DecidableEq

/-- The accept predicate of the simplified component: accept the first
payload whose trim is non-empty. -/
def simpleCaptureCb (p : String) : Bool := !(jsTrim p).toList.isEmpty

/-- The scanner offers payloads until the simple predicate accepts one. -/
def runSimpleCapture : List String → Option String
  | [] => none
  | p :: rest => if simpleCaptureCb p then some p else runSimpleCapture rest

/-- `openScanner` of the simplified component: clear the error; on resolve,
either report the closed-scanner error or display the accepted payload; on
throw, set the environment-limitation error. -/
def openScannerSimple (call : ScanCall) (st : SimpleScanState) : SimpleScanState :=
  let st0 := { st with error := (none : Option String) }
  match call with
  | .throws => { st0 with error := some scannerFailMsg }
  | .resolves payloads =>
    match runSimpleCapture payloads with
    | none => { st0 with error := some noPayloadMsg }
    | some s => { st0 with qrResult := some s }

/-- C9: when the scanner call throws or rejects, both component variants set
the generic environment-limitation error and leave the previously displayed
scan result (and, in the full variant, the link trace) unchanged. -/
theorem claim_C9_scanner_throw_preserves_result (validURL : String → Bool)
    (st : ScanState) (sst : SimpleScanState) :
    openScanner validURL .throws st =
      { qrResult := st.qrResult, error := some scannerFailMsg,
        linkOpens := st.linkOpens } ∧
    openScannerSimple .throws sst =
      { qrResult := sst.qrResult, error := some scannerFailMsg } := by
  constructor <;> rfl

/-! ## Login/bind flow (`LoginScreen`) -/

/-- An error object carrying a `message` string, as returned by the
Supabase auth and functions clients. -/
structure FnError where
  message : String
  deriving Repr, DecidableEq

/-- Response of `supabase.auth.verifyOtp(...)`: a possible session and a
possible error. -/
structure VerifyOtpResp where
  session : Option Session
  error : Option String

/-- Response of `supabase.functions.invoke("connect-telegram", ...)`. -/
structure InvokeResp where
  error : Option FnError

/-- Observable outcome of one run of `handleVerify`: which backend calls
were made, the body sent to the bind function, the alerts shown, the final
loading flag, whether `signOut` ran, and whether `onLoginSuccess` ran. -/
structure VerifyOutcome where
  verifyCalled : Bool
  bindCalled : Bool
  bindBody : Option String
  alerts : List String
  loading : Bool
  signOutCalled : Bool
  successInvoked : Bool
  deriving Repr, DecidableEq

/-- JS falsiness of a `string | undefined` value: `undefined` and `""` are
falsy (`if (!raw)`). -/
def jsFalsyStr : Option String → Bool
  | none => true
  | some s => s.data = []

def envErrMsg : String := "无法获取 initDataRaw：请从 Telegram 内部入口打开（Menu/Button）。"

def invalidCodeMsg : String := "Invalid code or session expired."

/-- `"Binding failed: " + (bindError.message || "Unknown error")`. -/
def bindFailAlert (m : String) : String :=
  "Binding failed: " ++ (if m.data = [] then "Unknown error" else m)

/-- `handleVerify` from `LoginScreen`: read `initData.raw()`; if falsy,
alert the localized environment error and return before any backend call.
Otherwise verify the one-time code; on error or missing session alert and
return.  Otherwise invoke the `connect-telegram` bind function with the
raw payload; on error alert (`signOut` stays commented out), else invoke
the success callback. -/
def handleVerify (raw : Option String) (verifyResp : VerifyOtpResp)
    (bindResp : InvokeResp) : VerifyOutcome :=
  if jsFalsyStr raw then
    { verifyCalled := false, bindCalled := false, bindBody := none,
      alerts := [envErrMsg], loading := false, signOutCalled := false,
      successInvoked := false }
  else if verifyResp.error.isSome || verifyResp.session.isNone then
    { verifyCalled := true, bindCalled := false, bindBody := none,
      alerts := [invalidCodeMsg], loading := false, signOutCalled := false,
      successInvoked := false }
  else
    match bindResp.error with
    | some err =>
      { verifyCalled := true, bindCalled := true, bindBody := raw,
        alerts := [bindFailAlert err.message], loading := false,
        signOutCalled := false, successInvoked := false }
    | none =>
      { verifyCalled := true, bindCalled := true, bindBody := raw,
        alerts := [], loading := false, signOutCalled := false,
        successInvoked := true }

/-- C4: whenever the signed launch payload is unavailable (absent or
empty), `handleVerify` shows only the localized environment error and
returns with no backend call at all — the verify call is never issued (so
no session is created) and the bind call is never issued. -/
theorem claim_C4_env_guard (raw : Option String) (verifyResp : VerifyOtpResp)
    (bindResp : InvokeResp) (h : jsFalsyStr raw = true) :
    handleVerify raw verifyResp bindResp =
      { verifyCalled := false, bindCalled := false, bindBody := none,
        alerts := [envErrMsg], loading := false, signOutCalled := false,
        successInvoked := false } := by
  simp [handleVerify, h]

/-- C4 witness: an absent payload aborts before any backend call. -/
theorem claim_C4_env_guard_witness :
    handleVerify none { session := some { userId := "u1" }, error := none }
        { error := none } =
      { verifyCalled := false, bindCalled := false, bindBody := none,
        alerts := [envErrMsg], loading := false, signOutCalled := false,
        successInvoked := false } :=
  claim_C4_env_guard none _ _ rfl

/-- C5: when the payload is available and code verification succeeds, a
failing bind call surfaces exactly the bind-failure alert, performs no
sign-out, and does not invoke the success callback; and the success
callback runs exactly when the bind call reports no error. -/
theorem claim_C5_bind_failure_no_rollback (raw : Option String)
    (verifyResp : VerifyOtpResp) (bindResp : InvokeResp)
    (hraw : jsFalsyStr raw = false) (hverr : verifyResp.error = none)
    (hsess : verifyResp.session.isSome = true) :
    (∀ e, bindResp.error = some e →
      handleVerify raw verifyResp bindResp =
        { verifyCalled := true, bindCalled := true, bindBody := raw,
          alerts := [bindFailAlert e.message], loading := false,
          signOutCalled := false, successInvoked := false }) ∧
    ((handleVerify raw verifyResp bindResp).successInvoked = true ↔
      bindResp.error = none) := by
  obtain ⟨s, hs⟩ := Option.isSome_iff_exists.mp hsess
  constructor
  · intro e he
    simp [handleVerify, hraw, hverr, hs, he]
  · cases he : bindResp.error <;>
      simp [handleVerify, hraw, hverr, hs, he]

/-- C5 witness: a concrete failing bind is surfaced without rollback, and a
concrete succeeding bind invokes the callback. -/
theorem claim_C5_bind_failure_no_rollback_witness :
    handleVerify (some "payload") { session := some { userId := "u1" }, error := none }
        { error := some { message := "boom" } } =
      { verifyCalled := true, bindCalled := true, bindBody := some "payload",
        alerts := [bindFailAlert "boom"], loading := false,
        signOutCalled := false, successInvoked := false } ∧
    ((handleVerify (some "payload")
        { session := some { userId := "u1" }, error := none }
        { error := none }).successInvoked = true ↔ (none : Option FnError) = none) := by
  constructor
  · exact (claim_C5_bind_failure_no_rollback (some "payload")
      { session := some { userId := "u1" }, error := none }
      { error := some { message := "boom" } } rfl rfl rfl).1 ⟨"boom"⟩ rfl
  · exact (claim_C5_bind_failure_no_rollback (some "payload")
      { session := some { userId := "u1" }, error := none }
      { error := none } rfl rfl rfl).2

/-- The two steps of the login flow. -/
inductive LoginStep where
  | email
  | otp
  deriving Repr, DecidableEq

/-- View state of `LoginScreen`. -/
structure LoginState where
  email : String
  otp : String
  step : LoginStep
  loading : Bool
  deriving Repr, DecidableEq

/-- Observable backend/UI effects of one run of `handleSendOtp`. -/
structure SendOutcome where
  sendCalled : Bool
  alerts : List String
  deriving Repr, DecidableEq

def allowedDomain : String := "@favoritemedium.com"

def accessDeniedMsg : String :=
  "Access Denied: Only @favoritemedium.com emails are allowed."

/-- `"Failed to send code: " + error.message`. -/
def sendFailAlert (m : String) : String := "Failed to send code: " ++ m

/-- JS `email.endsWith(suffix)`. -/
def strEndsWith (s suffix : String) : Bool := suffix.toList.isSuffixOf s.toList

/-- `handleSendOtp` from `LoginScreen`: reject (alert, no call, no state
change) unless the email ends with the allowed domain; otherwise call
`signInWithOtp` and, on success, move to the `otp` step. -/
def handleSendOtp (st : LoginState) (sendErr : Option FnError) :
    LoginState × SendOutcome :=
  if !strEndsWith st.email allowedDomain then
    (st, { sendCalled := false, alerts := [accessDeniedMsg] })
  else
    match sendErr with
    | some e =>
      ({ st with loading := false },
        { sendCalled := true, alerts := [sendFailAlert e.message] })
    | none =>
      ({ st with loading := false, step := LoginStep.otp },
        { sendCalled := true, alerts := [] })

/-- C6: for every email not ending in the allowed domain suffix,
`handleSendOtp` alerts the rejection, makes no backend call, and returns
the state completely unchanged — in particular still at the `email`
step. -/
theorem claim_C6_domain_guard (st : LoginState) (sendErr : Option FnError)
    (hstep : st.step = LoginStep.email)
    (hdom : strEndsWith st.email allowedDomain = false) :
    handleSendOtp st sendErr =
      (st, { sendCalled := false, alerts := [accessDeniedMsg] }) ∧
    (handleSendOtp st sendErr).1.step = LoginStep.email := by
  have h : handleSendOtp st sendErr =
      (st, { sendCalled := false, alerts := [accessDeniedMsg] }) := by
    simp [handleSendOtp, hdom]
  exact ⟨h, by rw [h]; exact hstep⟩

/-- C6 witness: a non-allow-listed email is rejected with no call and no
state change. -/
theorem claim_C6_domain_guard_witness :
    handleSendOtp
        { email := "a@gmail.com", otp := "", step := LoginStep.email,
          loading := false } none =
      ({ email := "a@gmail.com", otp := "", step := LoginStep.email,
          loading := false },
        { sendCalled := false, alerts := [accessDeniedMsg] }) ∧
    (handleSendOtp
        { email := "a@gmail.com", otp := "", step := LoginStep.email,
          loading := false } none).1.step = LoginStep.email :=
  claim_C6_domain_guard _ none rfl (by decide)

end TgMiniApp
